import Mathlib

/-!
Verification development for the management-api proxy service
(`src/main.py`, `src/utils.py`): a shallow embedding of the JSON data
model, the upstream HTTP client helpers (`api_fetch`, `api_post`,
`api_delete`, `api_put`) and the five request handlers, together with
theorems settling the specification claims.

Modelling conventions:
- JSON values are the inductive `Json`; Python dicts are association lists.
- An upstream call's environment is a function from request URL (and, for
  POST/PUT, the forwarded JSON payload) to an `UpstreamOutcome`: either a
  concrete HTTP `Response` or a transport-level failure carrying the
  exception text.
- Python exceptions relevant to the code are `PyExc`:
  `httpxStatus` models `httpx.HTTPStatusError` (carrying the response),
  `http` models `fastapi.HTTPException`, `other` models any other
  exception, identified by its `str(exc)` text.
- `str` of a `fastapi.HTTPException` is "code: detail" (starlette).
- Machine-level details (connection pooling, async scheduling) are not
  modelled; each handler is a pure function of its environment.
-/

/-- JSON values. Python dict bodies are association lists of key/value pairs
(keys unique in any value produced by JSON decoding). -/
inductive Json where
  | null : Json
  | bool (b : Bool) : Json
  | num (n : Int) : Json
  | str (s : String) : Json
  | arr (xs : List Json) : Json
  | obj (kvs : List (String × Json)) : Json

/-- Lookup of a key in a JSON object; `none` on non-objects. -/
def Json.lookupKey : Json → String → Option Json
  | .obj kvs, k => kvs.lookup k
  | _, _ => none

/-- The Python type name of a JSON value, as it appears in
AttributeError messages (`str(exc)`). -/
def pyTypeName : Json → String
  | .null => "NoneType"
  | .bool _ => "bool"
  | .num _ => "int"
  | .str _ => "str"
  | .arr _ => "list"
  | .obj _ => "dict"

/-- An upstream HTTP response: status code, raw body text, and the result
of `response.json()` (`Except.error` carries the decode exception text). -/
structure Response where
  status_code : Nat
  text : String
  jsonBody : Except String Json

/-- Outcome of issuing one HTTP request: a response, or a transport-level
failure (connection refused, DNS, timeout) with its exception text. -/
inductive UpstreamOutcome where
  | response (r : Response) : UpstreamOutcome
  | transportError (msg : String) : UpstreamOutcome

/-- fastapi.HTTPException: status code and detail string. -/
structure HTTPException where
  status_code : Nat
  detail : String
deriving DecidableEq

/-- The Python exceptions that can arise in this code base:
httpx.HTTPStatusError (carrying its response), fastapi.HTTPException,
or any other exception identified by its text. -/
inductive PyExc where
  | httpxStatus (r : Response) : PyExc
  | http (e : HTTPException) : PyExc
  | other (msg : String) : PyExc

/-- Python str(exc): for HTTPException starlette renders "code: detail";
for other exceptions we carry the text directly; httpx.HTTPStatusError
text is not needed (it is always caught and re-wrapped first). -/
def PyExc.str : PyExc → String
  | .httpxStatus r => "upstream returned status " ++ toString r.status_code
  | .http e => toString e.status_code ++ ": " ++ e.detail
  | .other msg => msg

/-- A Python value returned by one of the api helpers: a JSON-decoded
body, or the raw httpx response object. -/
inductive ApiValue where
  | decoded (j : Json) : ApiValue
  | raw (r : Response) : ApiValue

/-- Python attribute access `v.get(k, dflt)` on an api helper result:
defined for dicts; on any other value it raises AttributeError. -/
def ApiValue.get (v : ApiValue) (k : String) (dflt : Json) : Except PyExc Json :=
  match v with
  | .decoded (.obj kvs) => .ok ((kvs.lookup k).getD dflt)
  | .decoded j => .error (.other ("'" ++ pyTypeName j ++ "' object has no attribute 'get'"))
  | .raw _ => .error (.other "'Response' object has no attribute 'get'")

/-- httpx `response.raise_for_status()`: raises HTTPStatusError unless the
status is a 2xx success. -/
def raise_for_status (r : Response) : Except PyExc Unit :=
  if 200 ≤ r.status_code ∧ r.status_code < 300 then .ok () else .error (.httpxStatus r)

/-- The shared except-chain of the four api helpers in utils.py:
`except httpx.HTTPStatusError` re-raises HTTPException with the upstream
status and the given message head followed by the raw body text;
`except Exception` re-raises HTTPException 500 with the generic message. -/
def api_catch (m : String) : Except PyExc ApiValue → Except PyExc ApiValue
  | .ok v => .ok v
  | .error (.httpxStatus r) => .error (.http ⟨r.status_code, m ++ r.text⟩)
  | .error e => .error (.http ⟨500, "An unexpected error occurred: " ++ PyExc.str e⟩)

/-- utils.api_fetch: GET, raise_for_status, return response.json();
errors wrapped by the except chain with "Error fetching data: ". -/
def api_fetch (out : UpstreamOutcome) : Except PyExc ApiValue :=
  api_catch "Error fetching data: " (
    match out with
    | .transportError msg => .error (.other msg)
    | .response r =>
      match raise_for_status r with
      | .error e => .error e
      | .ok _ =>
        match r.jsonBody with
        | .error m => .error (.other m)
        | .ok j => .ok (.decoded j))

/-- utils.api_post: POST, raise_for_status, return response.json();
errors wrapped with "Error posting data: ". -/
def api_post (out : UpstreamOutcome) : Except PyExc ApiValue :=
  api_catch "Error posting data: " (
    match out with
    | .transportError msg => .error (.other msg)
    | .response r =>
      match raise_for_status r with
      | .error e => .error e
      | .ok _ =>
        match r.jsonBody with
        | .error m => .error (.other m)
        | .ok j => .ok (.decoded j))

/-- utils.api_delete: DELETE, raise_for_status, return the raw response
object (no JSON decoding); errors wrapped with "Error deleting data: ". -/
def api_delete (out : UpstreamOutcome) : Except PyExc ApiValue :=
  api_catch "Error deleting data: " (
    match out with
    | .transportError msg => .error (.other msg)
    | .response r =>
      match raise_for_status r with
      | .error e => .error e
      | .ok _ => .ok (.raw r))

/-- utils.api_put: PUT, raise_for_status, return the raw response object
(the source returns `response`, not `response.json()`); errors wrapped
with "Error updating data: ". -/
def api_put (out : UpstreamOutcome) : Except PyExc ApiValue :=
  api_catch "Error updating data: " (
    match out with
    | .transportError msg => .error (.other msg)
    | .response r =>
      match raise_for_status r with
      | .error e => .error e
      | .ok _ => .ok (.raw r))

/-- The except-chain shared by the five handlers in main.py:
`except httpx.HTTPStatusError` maps to the upstream status with the
handler's message head; `except Exception` maps to 500 with the generic
message around str(exc). Note the api helpers raise fastapi.HTTPException,
never httpx.HTTPStatusError, so the first branch is unreachable from them. -/
def handler_catch (m : String) (e : PyExc) : HTTPException :=
  match e with
  | .httpxStatus r => ⟨r.status_code, m ++ r.text⟩
  | e => ⟨500, "An unexpected error occurred: " ++ PyExc.str e⟩

/-- Hexadecimal digit value of a character, if any. -/
def hexVal (c : Char) : Option Nat :=
  if '0' ≤ c ∧ c ≤ '9' then some (c.toNat - '0'.toNat)
  else if 'a' ≤ c ∧ c ≤ 'f' then some (c.toNat - 'a'.toNat + 10)
  else if 'A' ≤ c ∧ c ≤ 'F' then some (c.toNat - 'A'.toNat + 10)
  else none

/-- urllib.parse.unquote at byte level: each valid percent escape of two
hex digits is replaced by the escaped code point; invalid escapes are kept
verbatim. (Python additionally UTF-8-decodes multi-byte sequences; the
claims only involve single-byte escapes, where this model coincides.) -/
def unquoteAux : List Char → List Char
  | [] => []
  | '%' :: a :: b :: rest =>
    (match hexVal a, hexVal b with
     | some x, some y => Char.ofNat (16 * x + y) :: unquoteAux rest
     | _, _ => '%' :: unquoteAux (a :: b :: rest))
  | c :: rest => c :: unquoteAux rest

/-- urllib.parse.unquote on strings. -/
def unquote (s : String) : String := ⟨unquoteAux s.data⟩

/-- Modelled from the spec: FastAPI percent-decodes each path segment once
before handing it to the handler (the framework decode is not part of the
repository's own sources). -/
def framework_decode (s : String) : String := unquote s

/-- URL of the first GET in get_clients (main.py line 30). -/
def client_url (base id : String) : String :=
  base ++ "/clients/" ++ id ++ ".json"

/-- URL of the second GET in get_clients (main.py line 34). -/
def client_lists_url (base id : String) : String :=
  base ++ "/clients/" ++ id ++ "/lists.json"

/-- URL of the first GET in get_list_details (main.py line 64). -/
def list_url (base id : String) : String :=
  base ++ "/lists/" ++ id ++ ".json"

/-- URL of the second GET in get_list_details (main.py line 68). -/
def list_active_url (base id : String) : String :=
  base ++ "/lists/" ++ id ++ "/active.json?&includetrackingpreference=true&includesmspreference=true"

/-- URL of the POST in add_active_subscriber (main.py line 112). -/
def add_subscriber_url (base id : String) : String :=
  base ++ "/subscribers/" ++ id ++ ".json"

/-- URL of the DELETE in remove_active_subscriber (main.py line 151):
a slash separates the base URL from the subscribers path, and both path
segments are percent-decoded once more with unquote. -/
def remove_subscriber_url (base emailList email : String) : String :=
  base ++ "/subscribers/" ++ unquote emailList ++ ".json?email=" ++ unquote email

/-- URL of the PUT in update_active_subscriber (main.py line 177): the
source concatenates the base URL and "subscribers/..." directly, with no
slash in between, unlike the other four endpoints. -/
def update_subscriber_url (base emailList email : String) : String :=
  base ++ "subscribers/" ++ unquote emailList ++ ".json?email=" ++ unquote email

/-- Success body of get_clients (main.py lines 38 to 42). -/
structure ClientResponse where
  basic_details : Json
  billing_details : Json
  lists : ApiValue

/-- Success body of get_list_details (main.py lines 72 to 75). -/
structure ListResponse where
  details : ApiValue
  active_subscribers : ApiValue

/-- The fixed confirmation object returned by remove_active_subscriber
(main.py line 154) and update_active_subscriber (main.py line 190). -/
def success200 : Json :=
  .obj [("message", .str "Subscriber removed successfully"), ("status", .num 200)]

/-- Handler GET /clients/(id) (main.py get_clients): two sequential
api_fetch calls, then the combined response with BasicDetails and
BillingDetails defaulted to empty dicts; errors through the except chain
with "Error fetching data: ". -/
def get_clients (base id : String) (env : String → UpstreamOutcome) :
    Except HTTPException ClientResponse :=
  let body : Except PyExc ClientResponse :=
    match api_fetch (env (client_url base id)) with
    | .error e => .error e
    | .ok client_data =>
      match api_fetch (env (client_lists_url base id)) with
      | .error e => .error e
      | .ok lists_data =>
        match client_data.get "BasicDetails" (Json.obj []) with
        | .error e => .error e
        | .ok basic =>
          match client_data.get "BillingDetails" (Json.obj []) with
          | .error e => .error e
          | .ok billing => .ok ⟨basic, billing, lists_data⟩
  match body with
  | .ok r => .ok r
  | .error e => .error (handler_catch "Error fetching data: " e)

/-- Handler GET /lists/(id) (main.py get_list_details): two sequential
api_fetch calls combined verbatim; errors through the except chain with
"Error fetching data: ". -/
def get_list_details (base id : String) (env : String → UpstreamOutcome) :
    Except HTTPException ListResponse :=
  let body : Except PyExc ListResponse :=
    match api_fetch (env (list_url base id)) with
    | .error e => .error e
    | .ok list_data =>
      match api_fetch (env (list_active_url base id)) with
      | .error e => .error e
      | .ok subscribers_data => .ok ⟨list_data, subscribers_data⟩
  match body with
  | .ok r => .ok r
  | .error e => .error (handler_catch "Error fetching data: " e)

/-- A CustomField entry of the Subscriber schema (main.py lines 90 to 92). -/
structure CustomField where
  Key : String
  Value : String

/-- The Subscriber pydantic model (main.py lines 94 to 102). Optional
fields admit explicit null (None); their declared defaults are Name and
MobileNumber None, CustomFields the empty list, Resubscribe and
RestartSubscriptionBasedAutoresponders False, ConsentToSendSms "No". -/
structure Subscriber where
  EmailAddress : String
  Name : Option String
  MobileNumber : Option String
  CustomFields : Option (List CustomField)
  Resubscribe : Option Bool
  RestartSubscriptionBasedAutoresponders : Option Bool
  ConsentToTrack : String
  ConsentToSendSms : Option String

/-- dict() of a CustomField. -/
def CustomField.dict (c : CustomField) : Json :=
  .obj [("Key", .str c.Key), ("Value", .str c.Value)]

/-- JSON rendering of an optional string field value (None is null). -/
def optStrJson : Option String → Json
  | none => .null
  | some s => .str s

/-- JSON rendering of an optional bool field value (None is null). -/
def optBoolJson : Option Bool → Json
  | none => .null
  | some b => .bool b

/-- subscriber.dict() (main.py lines 116 and 180): all eight declared
fields, in declaration order, nested models rendered as dicts. -/
def Subscriber.dict (s : Subscriber) : Json :=
  .obj [
    ("EmailAddress", .str s.EmailAddress),
    ("Name", optStrJson s.Name),
    ("MobileNumber", optStrJson s.MobileNumber),
    ("CustomFields",
      match s.CustomFields with
      | none => .null
      | some cfs => .arr (cfs.map CustomField.dict)),
    ("Resubscribe", optBoolJson s.Resubscribe),
    ("RestartSubscriptionBasedAutoresponders", optBoolJson s.RestartSubscriptionBasedAutoresponders),
    ("ConsentToTrack", .str s.ConsentToTrack),
    ("ConsentToSendSms", optStrJson s.ConsentToSendSms)
  ]

/-- Handler POST /subscribers/(id) (main.py add_active_subscriber): POST
the subscriber dict, return the upstream body verbatim; errors through
the except chain with "Error: ". -/
def add_active_subscriber (base id : String) (subscriber : Subscriber)
    (env : String → Json → UpstreamOutcome) : Except HTTPException ApiValue :=
  match api_post (env (add_subscriber_url base id) subscriber.dict) with
  | .ok res => .ok res
  | .error e => .error (handler_catch "Error: " e)

/-- Handler DELETE /subscribers/(emailList)/(email)
(main.py remove_active_subscriber): unquote both segments, DELETE, and on
success return the fixed confirmation object; errors through the except
chain with "Error removing subscriber: ". -/
def remove_active_subscriber (base emailList email : String)
    (env : String → UpstreamOutcome) : Except HTTPException Json :=
  match api_delete (env (remove_subscriber_url base emailList email)) with
  | .ok _ => .ok success200
  | .error e => .error (handler_catch "Error removing subscriber: " e)

/-- Handler PUT /subscribers/(emailList)/(email)
(main.py update_active_subscriber): unquote both segments, PUT the
subscriber dict, and on success return the same fixed confirmation object
as remove; errors through the except chain with
"Error updating subscriber: ". -/
def update_active_subscriber (base emailList email : String) (subscriber : Subscriber)
    (env : String → Json → UpstreamOutcome) : Except HTTPException Json :=
  match api_put (env (update_subscriber_url base emailList email) subscriber.dict) with
  | .ok _ => .ok success200
  | .error e => .error (handler_catch "Error updating subscriber: " e)

/-- Whether a JSON value is a string. -/
def isStrJson : Json → Bool
  | .str _ => true
  | _ => false

/-- A required string field of the Subscriber schema: must be present and
a string. -/
def reqStrField (kvs : List (String × Json)) (name : String) : Except String String :=
  match kvs.lookup name with
  | none => .error (name ++ ": field required")
  | some (.str s) => .ok s
  | some _ => .error (name ++ ": str type expected")

/-- An optional string field: missing takes the declared default,
explicit null is None. -/
def optStrField (kvs : List (String × Json)) (name : String) (dflt : Option String) :
    Except String (Option String) :=
  match kvs.lookup name with
  | none => .ok dflt
  | some .null => .ok none
  | some (.str s) => .ok (some s)
  | some _ => .error (name ++ ": str type expected")

/-- An optional bool field: missing takes the declared default, explicit
null is None. -/
def optBoolField (kvs : List (String × Json)) (name : String) (dflt : Option Bool) :
    Except String (Option Bool) :=
  match kvs.lookup name with
  | none => .ok dflt
  | some .null => .ok none
  | some (.bool b) => .ok (some b)
  | some _ => .error (name ++ ": bool type expected")

/-- Validation of one CustomField entry: an object with required string
Key and Value. -/
def parseCustomField : Json → Except String CustomField
  | .obj kvs =>
    match reqStrField kvs "Key" with
    | .error m => .error m
    | .ok k =>
      match reqStrField kvs "Value" with
      | .error m => .error m
      | .ok v => .ok ⟨k, v⟩
  | _ => .error "CustomFields: CustomField object expected"

/-- The CustomFields field: missing defaults to the empty list, explicit
null is None, otherwise a list of CustomField entries. -/
def customFieldsField (kvs : List (String × Json)) :
    Except String (Option (List CustomField)) :=
  match kvs.lookup "CustomFields" with
  | none => .ok (some [])
  | some .null => .ok none
  | some (.arr items) =>
    match items.mapM parseCustomField with
    | .error m => .error m
    | .ok cfs => .ok (some cfs)
  | some _ => .error "CustomFields: list type expected"

/-- Modelled from the spec: FastAPI/pydantic validate the inbound request
body against the Subscriber schema before the handler runs (the
enforcement lives in the framework, not in the repository sources; the
field table is taken from the Subscriber class declaration). A missing or
mistyped field yields a validation error naming the field. -/
def parseSubscriber : Json → Except String Subscriber
  | .obj kvs =>
    match reqStrField kvs "EmailAddress" with
    | .error m => .error m
    | .ok email =>
      match optStrField kvs "Name" none with
      | .error m => .error m
      | .ok name =>
        match optStrField kvs "MobileNumber" none with
        | .error m => .error m
        | .ok mob =>
          match customFieldsField kvs with
          | .error m => .error m
          | .ok cfs =>
            match optBoolField kvs "Resubscribe" (some false) with
            | .error m => .error m
            | .ok resub =>
              match optBoolField kvs "RestartSubscriptionBasedAutoresponders" (some false) with
              | .error m => .error m
              | .ok restart =>
                match reqStrField kvs "ConsentToTrack" with
                | .error m => .error m
                | .ok consent =>
                  match optStrField kvs "ConsentToSendSms" (some "No") with
                  | .error m => .error m
                  | .ok sms => .ok ⟨email, name, mob, cfs, resub, restart, consent, sms⟩
  | _ => .error "body: object expected"

/-- Whether a required field of the Subscriber schema (EmailAddress or
ConsentToTrack) is missing from the body or not a string. -/
def missingOrMistypedRequired (kvs : List (String × Json)) : Bool :=
  (match kvs.lookup "EmailAddress" with
   | none => true
   | some j => !isStrJson j)
  ||
  (match kvs.lookup "ConsentToTrack" with
   | none => true
   | some j => !isStrJson j)

/-- Modelled from the spec: the full inbound pipeline of
POST /subscribers/(id). FastAPI validates the body first; on a validation
failure it responds 422 (a 400-class status) and the handler, hence any
upstream call, is never reached. On success the handler runs. -/
def add_subscriber_endpoint (base id : String) (rawBody : Json)
    (env : String → Json → UpstreamOutcome) : Except HTTPException ApiValue :=
  match parseSubscriber rawBody with
  | .error m => .error ⟨422, "validation error: " ++ m⟩
  | .ok s => add_active_subscriber base id s env

/-- Keys of a JSON object, in order; empty on non-objects. -/
def Json.objKeys : Json → List String
  | .obj kvs => kvs.map Prod.fst
  | _ => []

/-- A sample subscriber used by the concrete instances of the theorems. -/
def sampleSubscriber : Subscriber :=
  ⟨"a@b.c", none, none, some [], some false, some false, "Yes", some "No"⟩

/-- A sample 2xx upstream response. -/
def ok200 : Response := ⟨200, "ok", .ok (Json.obj [("ok", Json.bool true)])⟩

/-- A sample 404 upstream response whose body text is not JSON. -/
def notFound404 : Response := ⟨404, "not found", .error "Expecting value: line 1 column 1 (char 0)"⟩

/-- A sample client-details body in which only BillingDetails is present. -/
def clientBody : Response :=
  ⟨200, "cb", .ok (Json.obj [("BillingDetails", Json.obj [("x", Json.num 5)])])⟩

/-- A sample lists body. -/
def listsBody : Response := ⟨200, "lb", .ok (Json.arr [])⟩

/-- Environment answering every GET with the same response. -/
def constEnv (r : Response) : String → UpstreamOutcome := fun _ => .response r

/-- Environment answering every POST or PUT with the same response. -/
def constEnvP (r : Response) : String → Json → UpstreamOutcome := fun _ _ => .response r

/-- Environment answering every request with a transport failure. -/
def refusedEnv : String → UpstreamOutcome := fun _ => .transportError "refused"

/-- Transport-failing environment for POST or PUT. -/
def refusedEnvP : String → Json → UpstreamOutcome := fun _ _ => .transportError "refused"

/-- Environment for GetClient: the client URL gets clientBody, every other
URL gets listsBody. -/
def clientEnv : String → UpstreamOutcome :=
  fun u => if u = client_url "B" "c" then .response clientBody else .response listsBody

/-- Environment whose second GetClient call yields a 404. -/
def clientEnv404 : String → UpstreamOutcome :=
  fun u => if u = client_lists_url "B" "c" then .response notFound404 else .response clientBody

/-- Environment whose second GetListDetails call yields a 404. -/
def listEnv404 : String → UpstreamOutcome :=
  fun u => if u = list_active_url "B" "c" then .response notFound404 else .response listsBody

/-- Environment whose calls after the first GetClient call fail at
transport level. -/
def clientEnvRefused : String → UpstreamOutcome :=
  fun u => if u = client_url "B" "c" then .response clientBody else .transportError "refused"

/-- Environment whose calls after the first GetListDetails call fail at
transport level. -/
def listEnvRefused : String → UpstreamOutcome :=
  fun u => if u = list_url "B" "c" then .response listsBody else .transportError "refused"

/-- PUT environment succeeding only at the slashless URL the source
actually builds in update_active_subscriber for base "B", list "l",
email "e". -/
def updateOnlyEnv : String → Json → UpstreamOutcome :=
  fun u _ => if u = "Bsubscribers/l.json?email=e" then .response ok200 else .transportError "refused"


theorem api_fetch_success (r : Response) (j : Json)
    (h1 : 200 ≤ r.status_code) (h2 : r.status_code < 300) (hj : r.jsonBody = .ok j) :
    api_fetch (.response r) = .ok (.decoded j) := by
  simp [api_fetch, raise_for_status, h1, h2, hj, api_catch]

theorem api_post_success (r : Response) (j : Json)
    (h1 : 200 ≤ r.status_code) (h2 : r.status_code < 300) (hj : r.jsonBody = .ok j) :
    api_post (.response r) = .ok (.decoded j) := by
  simp [api_post, raise_for_status, h1, h2, hj, api_catch]

theorem api_delete_success (r : Response)
    (h1 : 200 ≤ r.status_code) (h2 : r.status_code < 300) :
    api_delete (.response r) = .ok (.raw r) := by
  simp [api_delete, raise_for_status, h1, h2, api_catch]

theorem api_put_success (r : Response)
    (h1 : 200 ≤ r.status_code) (h2 : r.status_code < 300) :
    api_put (.response r) = .ok (.raw r) := by
  simp [api_put, raise_for_status, h1, h2, api_catch]

theorem api_fetch_non2xx (r : Response) (h : ¬ (200 ≤ r.status_code ∧ r.status_code < 300)) :
    api_fetch (.response r) =
      .error (.http ⟨r.status_code, "Error fetching data: " ++ r.text⟩) := by
  simp [api_fetch, raise_for_status, h, api_catch]

theorem api_fetch_transport (msg : String) :
    api_fetch (.transportError msg) =
      .error (.http ⟨500, "An unexpected error occurred: " ++ msg⟩) := rfl

theorem api_post_transport (msg : String) :
    api_post (.transportError msg) =
      .error (.http ⟨500, "An unexpected error occurred: " ++ msg⟩) := rfl

theorem api_delete_transport (msg : String) :
    api_delete (.transportError msg) =
      .error (.http ⟨500, "An unexpected error occurred: " ++ msg⟩) := rfl

theorem api_put_transport (msg : String) :
    api_put (.transportError msg) =
      .error (.http ⟨500, "An unexpected error occurred: " ++ msg⟩) := rfl

theorem handler_catch_http (m : String) (e : HTTPException) :
    handler_catch m (.http e) =
      ⟨500, "An unexpected error occurred: " ++ (toString e.status_code ++ ": " ++ e.detail)⟩ := rfl

theorem unquoteAux_no_percent (l : List Char) (h : '%' ∉ l) : unquoteAux l = l := by
  induction l with
  | nil => rfl
  | cons c rest ih =>
    have hc : c ≠ '%' := fun e => h (e ▸ List.mem_cons_self c rest)
    have hr : '%' ∉ rest := fun m => h (List.mem_cons_of_mem c m)
    cases rest with
    | nil => simp [unquoteAux, hc]
    | cons a t =>
      cases t with
      | nil => simp [unquoteAux, hc, ih hr]
      | cons b t2 => simp [unquoteAux, hc, ih hr]

theorem unquote_no_percent (s : String) (h : '%' ∉ s.data) : unquote s = s := by
  cases s with
  | mk l => exact congrArg String.mk (unquoteAux_no_percent l h)

theorem wrapped_transport_detail (msg : String) :
    "An unexpected error occurred: "
      ++ PyExc.str (.http ⟨500, "An unexpected error occurred: " ++ msg⟩)
      = "An unexpected error occurred: 500: An unexpected error occurred: " ++ msg := by
  simp only [PyExc.str, ← String.append_assoc]
  rfl

/-- C1: the claim states that a non-2xx upstream response reaches the
caller with the upstream status code. The code does not do this: the api
helpers translate the upstream status into a fastapi.HTTPException, which
the handlers' bare except-Exception branch re-wraps into a 500 (the
handlers' except-httpx.HTTPStatusError branches are unreachable). At the
failing input (upstream 404, body "not found") the caller receives a 500
whose detail embeds the upstream body text only inside the nested
message. -/
theorem C1_non2xx_wrapped_as_500 :
    get_clients "B" "c" (constEnv notFound404)
      = .error ⟨500, "An unexpected error occurred: 404: Error fetching data: not found"⟩
    ∧ remove_active_subscriber "B" "l" "e" (constEnv notFound404)
      = .error ⟨500, "An unexpected error occurred: 404: Error deleting data: not found"⟩ :=
  ⟨rfl, rfl⟩

/-- C2: on any upstream 2xx response, RemoveSubscriber and
UpdateSubscriber both return exactly the fixed confirmation object,
independent of the upstream body (the 2xx response is arbitrary). -/
theorem C2_fixed_confirmation_object
    (base el em : String) (s : Subscriber)
    (envd : String → UpstreamOutcome) (envp : String → Json → UpstreamOutcome)
    (rd rp : Response)
    (hd : envd (remove_subscriber_url base el em) = .response rd)
    (hd1 : 200 ≤ rd.status_code) (hd2 : rd.status_code < 300)
    (hp : envp (update_subscriber_url base el em) (Subscriber.dict s) = .response rp)
    (hp1 : 200 ≤ rp.status_code) (hp2 : rp.status_code < 300) :
    remove_active_subscriber base el em envd = .ok success200
    ∧ update_active_subscriber base el em s envp = .ok success200 := by
  constructor
  · simp [remove_active_subscriber, hd, api_delete_success rd hd1 hd2]
  · simp [update_active_subscriber, hp, api_put_success rp hp1 hp2]

/-- C2 witness at a concrete 2xx response. -/
theorem C2_witness :
    (200 ≤ ok200.status_code ∧ ok200.status_code < 300)
    ∧ remove_active_subscriber "B" "l" "e" (constEnv ok200) = .ok success200
    ∧ update_active_subscriber "B" "l" "e" sampleSubscriber (constEnvP ok200) = .ok success200 :=
  ⟨by decide,
   C2_fixed_confirmation_object "B" "l" "e" sampleSubscriber (constEnv ok200) (constEnvP ok200)
     ok200 ok200 rfl (by decide) (by decide) rfl (by decide) (by decide)⟩

/-- C3: for successful upstream payloads, GetClient returns BasicDetails
and BillingDetails from the client body, defaulting each to the empty
object when the key is absent (absence is not an error), and lists is
exactly the second call's decoded body. -/
theorem C3_get_client_merge
    (base id : String) (env : String → UpstreamOutcome)
    (r1 r2 : Response) (kvs : List (String × Json)) (j2 : Json)
    (e1 : env (client_url base id) = .response r1)
    (e2 : env (client_lists_url base id) = .response r2)
    (h11 : 200 ≤ r1.status_code) (h12 : r1.status_code < 300)
    (hb1 : r1.jsonBody = .ok (.obj kvs))
    (h21 : 200 ≤ r2.status_code) (h22 : r2.status_code < 300)
    (hb2 : r2.jsonBody = .ok j2) :
    get_clients base id env =
      .ok ⟨(kvs.lookup "BasicDetails").getD (Json.obj []),
           (kvs.lookup "BillingDetails").getD (Json.obj []),
           .decoded j2⟩ := by
  simp [get_clients, e1, e2, api_fetch_success r1 _ h11 h12 hb1,
        api_fetch_success r2 j2 h21 h22 hb2, ApiValue.get]

/-- C3 witness: a client body missing BasicDetails still succeeds, with
basic_details defaulted to the empty object and lists passed through. -/
theorem C3_witness :
    clientEnv (client_url "B" "c") = .response clientBody
    ∧ get_clients "B" "c" clientEnv =
        .ok ⟨Json.obj [], Json.obj [("x", Json.num 5)], .decoded (Json.arr [])⟩ :=
  ⟨rfl,
   C3_get_client_merge "B" "c" clientEnv clientBody listsBody
     [("BillingDetails", Json.obj [("x", Json.num 5)])] (Json.arr [])
     rfl rfl (by decide) (by decide) rfl (by decide) (by decide) rfl⟩

/-- C4 counterexample: the claim says api_put returns the JSON-decoded
response body on a 2xx; on the concrete response ok200 it returns the raw
response object instead. -/
theorem C4_counterexample :
    ¬ (∀ (r : Response) (j : Json), r.jsonBody = .ok j → 200 ≤ r.status_code →
        r.status_code < 300 → api_put (.response r) = .ok (.decoded j)) := by
  intro h
  have h2 := h ok200 (Json.obj [("ok", Json.bool true)]) rfl (by decide) (by decide)
  rw [api_put_success ok200 (by decide) (by decide)] at h2
  injection h2 with h3
  exact ApiValue.noConfusion h3

/-- C4 amended: on a 2xx upstream response, api_fetch and api_post return
the JSON-decoded body, while api_delete and api_put both return the raw
response object. -/
theorem C4_amended_return_shapes
    (r : Response) (j : Json)
    (hj : r.jsonBody = .ok j) (h1 : 200 ≤ r.status_code) (h2 : r.status_code < 300) :
    api_fetch (.response r) = .ok (.decoded j)
    ∧ api_post (.response r) = .ok (.decoded j)
    ∧ api_delete (.response r) = .ok (.raw r)
    ∧ api_put (.response r) = .ok (.raw r) :=
  ⟨api_fetch_success r j h1 h2 hj, api_post_success r j h1 h2 hj,
   api_delete_success r h1 h2, api_put_success r h1 h2⟩

/-- C4 amended witness at a concrete decodable 2xx response. -/
theorem C4_amended_witness :
    (200 ≤ ok200.status_code ∧ ok200.status_code < 300)
    ∧ (api_fetch (.response ok200) = .ok (.decoded (Json.obj [("ok", Json.bool true)]))
       ∧ api_post (.response ok200) = .ok (.decoded (Json.obj [("ok", Json.bool true)]))
       ∧ api_delete (.response ok200) = .ok (.raw ok200)
       ∧ api_put (.response ok200) = .ok (.raw ok200)) :=
  ⟨by decide,
   C4_amended_return_shapes ok200 (Json.obj [("ok", Json.bool true)]) rfl (by decide) (by decide)⟩

/-- C5 counterexample: the claim says UpdateSubscriber targets the URL
with a path separator after the base URL, like RemoveSubscriber, so its
result would depend on the environment only at that slashed URL. With
base "B", list "l", email "e", an environment that differs from the
transport-failing one only at the slashless URL produces a different
result, refuting the claim. -/
theorem C5_counterexample :
    ¬ (∀ (base el em : String) (s : Subscriber) (env env' : String → Json → UpstreamOutcome),
        env (base ++ "/subscribers/" ++ unquote el ++ ".json?email=" ++ unquote em)
            (Subscriber.dict s)
          = env' (base ++ "/subscribers/" ++ unquote el ++ ".json?email=" ++ unquote em)
            (Subscriber.dict s)
        → update_active_subscriber base el em s env = update_active_subscriber base el em s env') := by
  intro h
  have h2 := h "B" "l" "e" sampleSubscriber updateOnlyEnv refusedEnvP rfl
  rw [show update_active_subscriber "B" "l" "e" sampleSubscriber updateOnlyEnv
      = .ok success200 from rfl] at h2
  rw [show update_active_subscriber "B" "l" "e" sampleSubscriber refusedEnvP
      = .error ⟨500, "An unexpected error occurred: 500: An unexpected error occurred: refused"⟩
      from rfl] at h2
  exact Except.noConfusion h2

/-- C5 amended: UpdateSubscriber issues its PUT to the base URL directly
concatenated with subscribers/(decoded listId).json?email=(decoded email),
with no path separator between the base URL and the path, unlike
AddSubscriber and RemoveSubscriber; its result depends on the environment
only at that URL and at the forwarded subscriber dict. -/
theorem C5_amended_update_url
    (base el em : String) (s : Subscriber) (env env' : String → Json → UpstreamOutcome)
    (h : env (base ++ "subscribers/" ++ unquote el ++ ".json?email=" ++ unquote em)
          (Subscriber.dict s)
       = env' (base ++ "subscribers/" ++ unquote el ++ ".json?email=" ++ unquote em)
          (Subscriber.dict s)) :
    update_subscriber_url base el em
      = base ++ "subscribers/" ++ unquote el ++ ".json?email=" ++ unquote em
    ∧ update_active_subscriber base el em s env = update_active_subscriber base el em s env' := by
  refine ⟨rfl, ?_⟩
  unfold update_active_subscriber update_subscriber_url
  rw [h]

/-- C5 amended witness at concrete segments. -/
theorem C5_amended_witness :
    update_subscriber_url "B" "l" "e" = "Bsubscribers/l.json?email=e"
    ∧ update_active_subscriber "B" "l" "e" sampleSubscriber (constEnvP ok200)
        = update_active_subscriber "B" "l" "e" sampleSubscriber (constEnvP ok200) :=
  C5_amended_update_url "B" "l" "e" sampleSubscriber (constEnvP ok200) (constEnvP ok200) rfl

theorem transport_result (m msg : String) :
    handler_catch m (.http ⟨500, "An unexpected error occurred: " ++ msg⟩)
      = ⟨500, "An unexpected error occurred: 500: An unexpected error occurred: " ++ msg⟩ := by
  show HTTPException.mk 500
      ("An unexpected error occurred: "
        ++ PyExc.str (.http ⟨500, "An unexpected error occurred: " ++ msg⟩)) = _
  rw [wrapped_transport_detail]

/-- C7: for the two-call endpoints, when the second upstream call fails
(any failure kind), the request fails with an error response, and the
result does not depend on the first call's successful payload at all (so
no part of it can appear in the response). -/
theorem C7_second_call_failure_discards_first :
    (∀ (base id : String) (env env' : String → UpstreamOutcome) (v v' : ApiValue) (e2 : PyExc),
      api_fetch (env (client_url base id)) = .ok v →
      api_fetch (env' (client_url base id)) = .ok v' →
      env (client_lists_url base id) = env' (client_lists_url base id) →
      api_fetch (env (client_lists_url base id)) = .error e2 →
      (∃ ex, get_clients base id env = .error ex)
      ∧ get_clients base id env = get_clients base id env')
    ∧
    (∀ (base id : String) (env env' : String → UpstreamOutcome) (v v' : ApiValue) (e2 : PyExc),
      api_fetch (env (list_url base id)) = .ok v →
      api_fetch (env' (list_url base id)) = .ok v' →
      env (list_active_url base id) = env' (list_active_url base id) →
      api_fetch (env (list_active_url base id)) = .error e2 →
      (∃ ex, get_list_details base id env = .error ex)
      ∧ get_list_details base id env = get_list_details base id env') := by
  constructor
  · intro base id env env' v v' e2 h1 h1' ha h2
    have h2' := h2
    rw [ha] at h2'
    refine ⟨⟨handler_catch "Error fetching data: " e2, ?_⟩, ?_⟩
    · simp [get_clients, h1, h2]
    · simp [get_clients, h1, h1', h2, h2']
  · intro base id env env' v v' e2 h1 h1' ha h2
    have h2' := h2
    rw [ha] at h2'
    refine ⟨⟨handler_catch "Error fetching data: " e2, ?_⟩, ?_⟩
    · simp [get_list_details, h1, h2]
    · simp [get_list_details, h1, h1', h2, h2']

/-- C7 witness: concrete environments whose second call yields a 404. -/
theorem C7_witness :
    (∃ ex, get_clients "B" "c" clientEnv404 = .error ex)
    ∧ get_clients "B" "c" clientEnv404 = get_clients "B" "c" clientEnv404
    ∧ (∃ ex, get_list_details "B" "c" listEnv404 = .error ex)
    ∧ get_list_details "B" "c" listEnv404 = get_list_details "B" "c" listEnv404 := by
  have hc := C7_second_call_failure_discards_first.1 "B" "c" clientEnv404 clientEnv404
    (.decoded (Json.obj [("BillingDetails", Json.obj [("x", Json.num 5)])]))
    (.decoded (Json.obj [("BillingDetails", Json.obj [("x", Json.num 5)])]))
    (.http ⟨404, "Error fetching data: not found"⟩) rfl rfl rfl rfl
  have hl := C7_second_call_failure_discards_first.2 "B" "c" listEnv404 listEnv404
    (.decoded (Json.arr [])) (.decoded (Json.arr []))
    (.http ⟨404, "Error fetching data: not found"⟩) rfl rfl rfl rfl
  exact ⟨hc.1, hc.2, hl.1, hl.2⟩

/-- C8: a transport-level failure of any upstream call, on any endpoint,
reaches the caller as a 500 whose generic message embeds the transport
exception text; the handlers are total, so no exception escapes. -/
theorem C8_transport_failure_yields_500 :
    (∀ (base id msg : String) (env : String → UpstreamOutcome),
      env (client_url base id) = .transportError msg →
      get_clients base id env = .error ⟨500,
        "An unexpected error occurred: 500: An unexpected error occurred: " ++ msg⟩)
    ∧ (∀ (base id msg : String) (env : String → UpstreamOutcome) (v : ApiValue),
      api_fetch (env (client_url base id)) = .ok v →
      env (client_lists_url base id) = .transportError msg →
      get_clients base id env = .error ⟨500,
        "An unexpected error occurred: 500: An unexpected error occurred: " ++ msg⟩)
    ∧ (∀ (base id msg : String) (env : String → UpstreamOutcome),
      env (list_url base id) = .transportError msg →
      get_list_details base id env = .error ⟨500,
        "An unexpected error occurred: 500: An unexpected error occurred: " ++ msg⟩)
    ∧ (∀ (base id msg : String) (env : String → UpstreamOutcome) (v : ApiValue),
      api_fetch (env (list_url base id)) = .ok v →
      env (list_active_url base id) = .transportError msg →
      get_list_details base id env = .error ⟨500,
        "An unexpected error occurred: 500: An unexpected error occurred: " ++ msg⟩)
    ∧ (∀ (base id msg : String) (s : Subscriber) (env : String → Json → UpstreamOutcome),
      env (add_subscriber_url base id) (Subscriber.dict s) = .transportError msg →
      add_active_subscriber base id s env = .error ⟨500,
        "An unexpected error occurred: 500: An unexpected error occurred: " ++ msg⟩)
    ∧ (∀ (base el em msg : String) (env : String → UpstreamOutcome),
      env (remove_subscriber_url base el em) = .transportError msg →
      remove_active_subscriber base el em env = .error ⟨500,
        "An unexpected error occurred: 500: An unexpected error occurred: " ++ msg⟩)
    ∧ (∀ (base el em msg : String) (s : Subscriber) (env : String → Json → UpstreamOutcome),
      env (update_subscriber_url base el em) (Subscriber.dict s) = .transportError msg →
      update_active_subscriber base el em s env = .error ⟨500,
        "An unexpected error occurred: 500: An unexpected error occurred: " ++ msg⟩) := by
  refine ⟨?_, ?_, ?_, ?_, ?_, ?_, ?_⟩
  · intro base id msg env h
    simp [get_clients, h, api_fetch_transport, transport_result]
  · intro base id msg env v h1 h2
    simp [get_clients, h1, h2, api_fetch_transport, transport_result]
  · intro base id msg env h
    simp [get_list_details, h, api_fetch_transport, transport_result]
  · intro base id msg env v h1 h2
    simp [get_list_details, h1, h2, api_fetch_transport, transport_result]
  · intro base id msg s env h
    simp [add_active_subscriber, h, api_post_transport, transport_result]
  · intro base el em msg env h
    simp [remove_active_subscriber, h, api_delete_transport, transport_result]
  · intro base el em msg s env h
    simp [update_active_subscriber, h, api_put_transport, transport_result]

/-- C8 witness: concrete transport failures on each endpoint and call. -/
theorem C8_witness :
    get_clients "B" "c" refusedEnv = .error ⟨500,
      "An unexpected error occurred: 500: An unexpected error occurred: refused"⟩
    ∧ get_clients "B" "c" clientEnvRefused = .error ⟨500,
      "An unexpected error occurred: 500: An unexpected error occurred: refused"⟩
    ∧ get_list_details "B" "c" refusedEnv = .error ⟨500,
      "An unexpected error occurred: 500: An unexpected error occurred: refused"⟩
    ∧ get_list_details "B" "c" listEnvRefused = .error ⟨500,
      "An unexpected error occurred: 500: An unexpected error occurred: refused"⟩
    ∧ add_active_subscriber "B" "l" sampleSubscriber refusedEnvP = .error ⟨500,
      "An unexpected error occurred: 500: An unexpected error occurred: refused"⟩
    ∧ remove_active_subscriber "B" "l" "e" refusedEnv = .error ⟨500,
      "An unexpected error occurred: 500: An unexpected error occurred: refused"⟩
    ∧ update_active_subscriber "B" "l" "e" sampleSubscriber refusedEnvP = .error ⟨500,
      "An unexpected error occurred: 500: An unexpected error occurred: refused"⟩ := by
  have h := C8_transport_failure_yields_500
  exact ⟨h.1 "B" "c" "refused" refusedEnv rfl,
    h.2.1 "B" "c" "refused" clientEnvRefused
      (.decoded (Json.obj [("BillingDetails", Json.obj [("x", Json.num 5)])])) rfl rfl,
    h.2.2.1 "B" "c" "refused" refusedEnv rfl,
    h.2.2.2.1 "B" "c" "refused" listEnvRefused (.decoded (Json.arr [])) rfl rfl,
    h.2.2.2.2.1 "B" "l" "refused" sampleSubscriber refusedEnvP rfl,
    h.2.2.2.2.2.1 "B" "l" "e" "refused" refusedEnv rfl,
    h.2.2.2.2.2.2 "B" "l" "e" "refused" sampleSubscriber refusedEnvP rfl⟩

theorem reqStrField_error (kvs : List (String × Json)) (n : String)
    (h : (match kvs.lookup n with
          | none => true
          | some j => !isStrJson j) = true) :
    ∃ m, reqStrField kvs n = .error m := by
  cases hl : kvs.lookup n with
  | none => exact ⟨n ++ ": field required", by simp [reqStrField, hl]⟩
  | some j =>
    rw [hl] at h
    cases j with
    | str s => simp [isStrJson] at h
    | null => exact ⟨n ++ ": str type expected", by simp [reqStrField, hl]⟩
    | bool b => exact ⟨n ++ ": str type expected", by simp [reqStrField, hl]⟩
    | num k => exact ⟨n ++ ": str type expected", by simp [reqStrField, hl]⟩
    | arr xs => exact ⟨n ++ ": str type expected", by simp [reqStrField, hl]⟩
    | obj o => exact ⟨n ++ ": str type expected", by simp [reqStrField, hl]⟩

theorem parse_error_of_required (kvs : List (String × Json))
    (h : missingOrMistypedRequired kvs = true) :
    ∃ m, parseSubscriber (Json.obj kvs) = .error m := by
  unfold missingOrMistypedRequired at h
  rw [Bool.or_eq_true] at h
  rcases h with hE | hC
  · obtain ⟨m, hm⟩ := reqStrField_error kvs "EmailAddress" hE
    exact ⟨m, by simp [parseSubscriber, hm]⟩
  · obtain ⟨mc, hmc⟩ := reqStrField_error kvs "ConsentToTrack" hC
    cases hE : reqStrField kvs "EmailAddress" with
    | error me => exact ⟨me, by simp [parseSubscriber, hE]⟩
    | ok email =>
      cases hN : optStrField kvs "Name" none with
      | error m => exact ⟨m, by simp [parseSubscriber, hE, hN]⟩
      | ok name =>
        cases hM : optStrField kvs "MobileNumber" none with
        | error m => exact ⟨m, by simp [parseSubscriber, hE, hN, hM]⟩
        | ok mob =>
          cases hCf : customFieldsField kvs with
          | error m => exact ⟨m, by simp [parseSubscriber, hE, hN, hM, hCf]⟩
          | ok cfs =>
            cases hR : optBoolField kvs "Resubscribe" (some false) with
            | error m => exact ⟨m, by simp [parseSubscriber, hE, hN, hM, hCf, hR]⟩
            | ok resub =>
              cases hR2 : optBoolField kvs "RestartSubscriptionBasedAutoresponders" (some false) with
              | error m => exact ⟨m, by simp [parseSubscriber, hE, hN, hM, hCf, hR, hR2]⟩
              | ok restart =>
                exact ⟨mc, by simp [parseSubscriber, hE, hN, hM, hCf, hR, hR2, hmc]⟩

theorem parseSubscriber_inv (kvs : List (String × Json)) (s : Subscriber)
    (h : parseSubscriber (Json.obj kvs) = .ok s) :
    reqStrField kvs "EmailAddress" = .ok s.EmailAddress
    ∧ optStrField kvs "Name" none = .ok s.Name
    ∧ optStrField kvs "MobileNumber" none = .ok s.MobileNumber
    ∧ customFieldsField kvs = .ok s.CustomFields
    ∧ optBoolField kvs "Resubscribe" (some false) = .ok s.Resubscribe
    ∧ optBoolField kvs "RestartSubscriptionBasedAutoresponders" (some false)
        = .ok s.RestartSubscriptionBasedAutoresponders
    ∧ reqStrField kvs "ConsentToTrack" = .ok s.ConsentToTrack
    ∧ optStrField kvs "ConsentToSendSms" (some "No") = .ok s.ConsentToSendSms := by
  cases hE : reqStrField kvs "EmailAddress" with
  | error m => simp [parseSubscriber, hE] at h
  | ok email =>
  cases hN : optStrField kvs "Name" none with
  | error m => simp [parseSubscriber, hE, hN] at h
  | ok name =>
  cases hM : optStrField kvs "MobileNumber" none with
  | error m => simp [parseSubscriber, hE, hN, hM] at h
  | ok mob =>
  cases hCf : customFieldsField kvs with
  | error m => simp [parseSubscriber, hE, hN, hM, hCf] at h
  | ok cfs =>
  cases hR : optBoolField kvs "Resubscribe" (some false) with
  | error m => simp [parseSubscriber, hE, hN, hM, hCf, hR] at h
  | ok resub =>
  cases hR2 : optBoolField kvs "RestartSubscriptionBasedAutoresponders" (some false) with
  | error m => simp [parseSubscriber, hE, hN, hM, hCf, hR, hR2] at h
  | ok restart =>
  cases hC : reqStrField kvs "ConsentToTrack" with
  | error m => simp [parseSubscriber, hE, hN, hM, hCf, hR, hR2, hC] at h
  | ok consent =>
  cases hS : optStrField kvs "ConsentToSendSms" (some "No") with
  | error m => simp [parseSubscriber, hE, hN, hM, hCf, hR, hR2, hC, hS] at h
  | ok sms =>
    have h2 : Subscriber.mk email name mob cfs resub restart consent sms = s := by
      simp [parseSubscriber, hE, hN, hM, hCf, hR, hR2, hC, hS] at h
      exact h
    subst h2
    exact ⟨rfl, rfl, rfl, rfl, rfl, rfl, rfl, rfl⟩

/-- C6: an AddSubscriber body whose required EmailAddress or
ConsentToTrack field is missing or not a string is rejected with a
validation error (422, a 400-class status) and the result does not depend
on the upstream environment at all, so no upstream call is made. -/
theorem C6_validation_precedes_upstream
    (base id : String) (kvs : List (String × Json))
    (env env' : String → Json → UpstreamOutcome)
    (h : missingOrMistypedRequired kvs = true) :
    (∃ m, add_subscriber_endpoint base id (Json.obj kvs) env
        = .error ⟨422, "validation error: " ++ m⟩)
    ∧ add_subscriber_endpoint base id (Json.obj kvs) env
        = add_subscriber_endpoint base id (Json.obj kvs) env' := by
  obtain ⟨m, hm⟩ := parse_error_of_required kvs h
  exact ⟨⟨m, by simp [add_subscriber_endpoint, hm]⟩, by simp [add_subscriber_endpoint, hm]⟩

/-- C6 witness: a body with only ConsentToTrack (EmailAddress missing) is
rejected identically under a working and a failing environment. -/
theorem C6_witness :
    missingOrMistypedRequired [("ConsentToTrack", Json.str "Yes")] = true
    ∧ ((∃ m, add_subscriber_endpoint "B" "l"
          (Json.obj [("ConsentToTrack", Json.str "Yes")]) (constEnvP ok200)
          = .error ⟨422, "validation error: " ++ m⟩)
       ∧ add_subscriber_endpoint "B" "l"
          (Json.obj [("ConsentToTrack", Json.str "Yes")]) (constEnvP ok200)
          = add_subscriber_endpoint "B" "l"
            (Json.obj [("ConsentToTrack", Json.str "Yes")]) refusedEnvP) :=
  ⟨rfl, C6_validation_precedes_upstream "B" "l" [("ConsentToTrack", Json.str "Yes")]
    (constEnvP ok200) refusedEnvP rfl⟩

/-- C9: a valid inbound body yields a forwarded payload
(subscriber.dict()) with all eight Subscriber fields present in
declaration order, and each absent optional field takes its declared
default: Name and MobileNumber null, CustomFields the empty array,
Resubscribe and RestartSubscriptionBasedAutoresponders false,
ConsentToSendSms the string "No". -/
theorem C9_payload_has_all_eight_fields
    (kvs : List (String × Json)) (s : Subscriber)
    (h : parseSubscriber (Json.obj kvs) = .ok s) :
    (Subscriber.dict s).objKeys
      = ["EmailAddress", "Name", "MobileNumber", "CustomFields", "Resubscribe",
         "RestartSubscriptionBasedAutoresponders", "ConsentToTrack", "ConsentToSendSms"]
    ∧ (kvs.lookup "Name" = none → (Subscriber.dict s).lookupKey "Name" = some Json.null)
    ∧ (kvs.lookup "MobileNumber" = none →
        (Subscriber.dict s).lookupKey "MobileNumber" = some Json.null)
    ∧ (kvs.lookup "CustomFields" = none →
        (Subscriber.dict s).lookupKey "CustomFields" = some (Json.arr []))
    ∧ (kvs.lookup "Resubscribe" = none →
        (Subscriber.dict s).lookupKey "Resubscribe" = some (Json.bool false))
    ∧ (kvs.lookup "RestartSubscriptionBasedAutoresponders" = none →
        (Subscriber.dict s).lookupKey "RestartSubscriptionBasedAutoresponders"
          = some (Json.bool false))
    ∧ (kvs.lookup "ConsentToSendSms" = none →
        (Subscriber.dict s).lookupKey "ConsentToSendSms" = some (Json.str "No")) := by
  obtain ⟨hE, hN, hM, hCf, hR, hR2, hC, hS⟩ := parseSubscriber_inv kvs s h
  refine ⟨rfl, ?_, ?_, ?_, ?_, ?_, ?_⟩
  · intro hk
    simp [optStrField, hk] at hN
    rw [show (Subscriber.dict s).lookupKey "Name" = some (optStrJson s.Name) from rfl, ← hN]
    rfl
  · intro hk
    simp [optStrField, hk] at hM
    rw [show (Subscriber.dict s).lookupKey "MobileNumber" = some (optStrJson s.MobileNumber)
        from rfl, ← hM]
    rfl
  · intro hk
    simp [customFieldsField, hk] at hCf
    rw [show (Subscriber.dict s).lookupKey "CustomFields"
        = some (match s.CustomFields with
                | none => Json.null
                | some cfs => Json.arr (cfs.map CustomField.dict)) from rfl, ← hCf]
    rfl
  · intro hk
    simp [optBoolField, hk] at hR
    rw [show (Subscriber.dict s).lookupKey "Resubscribe" = some (optBoolJson s.Resubscribe)
        from rfl, ← hR]
    rfl
  · intro hk
    simp [optBoolField, hk] at hR2
    rw [show (Subscriber.dict s).lookupKey "RestartSubscriptionBasedAutoresponders"
        = some (optBoolJson s.RestartSubscriptionBasedAutoresponders) from rfl, ← hR2]
    rfl
  · intro hk
    simp [optStrField, hk] at hS
    rw [show (Subscriber.dict s).lookupKey "ConsentToSendSms"
        = some (optStrJson s.ConsentToSendSms) from rfl, ← hS]
    rfl

/-- C9 witness: a body with only the two required fields parses, and the
forwarded payload carries all eight fields with the declared defaults. -/
theorem C9_witness :
    parseSubscriber (Json.obj [("EmailAddress", Json.str "a@b.c"),
        ("ConsentToTrack", Json.str "Yes")])
      = .ok sampleSubscriber
    ∧ (Subscriber.dict sampleSubscriber).objKeys
      = ["EmailAddress", "Name", "MobileNumber", "CustomFields", "Resubscribe",
         "RestartSubscriptionBasedAutoresponders", "ConsentToTrack", "ConsentToSendSms"]
    ∧ (Subscriber.dict sampleSubscriber).lookupKey "Name" = some Json.null
    ∧ (Subscriber.dict sampleSubscriber).lookupKey "MobileNumber" = some Json.null
    ∧ (Subscriber.dict sampleSubscriber).lookupKey "CustomFields" = some (Json.arr [])
    ∧ (Subscriber.dict sampleSubscriber).lookupKey "Resubscribe" = some (Json.bool false)
    ∧ (Subscriber.dict sampleSubscriber).lookupKey "RestartSubscriptionBasedAutoresponders"
        = some (Json.bool false)
    ∧ (Subscriber.dict sampleSubscriber).lookupKey "ConsentToSendSms" = some (Json.str "No") := by
  have h := C9_payload_has_all_eight_fields
    [("EmailAddress", Json.str "a@b.c"), ("ConsentToTrack", Json.str "Yes")]
    sampleSubscriber rfl
  exact ⟨rfl, h.1, h.2.1 rfl, h.2.2.1 rfl, h.2.2.2.1 rfl, h.2.2.2.2.1 rfl,
    h.2.2.2.2.2.1 rfl, h.2.2.2.2.2.2 rfl⟩

/-- C10: RemoveSubscriber and UpdateSubscriber apply unquote to segments
the framework has already decoded once, so the value embedded in the
upstream query string is the twice-decoded form of the raw segment, and a
segment whose once-decoded form contains no percent sign is embedded
unchanged. -/
theorem C10_double_decode (base rawList rawEmail : String) :
    remove_subscriber_url base (framework_decode rawList) (framework_decode rawEmail)
      = base ++ "/subscribers/" ++ unquote (unquote rawList) ++ ".json?email="
        ++ unquote (unquote rawEmail)
    ∧ update_subscriber_url base (framework_decode rawList) (framework_decode rawEmail)
      = base ++ "subscribers/" ++ unquote (unquote rawList) ++ ".json?email="
        ++ unquote (unquote rawEmail)
    ∧ (∀ seg : String, '%' ∉ seg.data → unquote seg = seg) :=
  ⟨rfl, rfl, fun seg hs => unquote_no_percent seg hs⟩

/-- C10 witness: the raw segment a percent-2540 b (a literal percent-40
once framework-decoded) is embedded as the twice-decoded a at b, while a
percent-free segment is embedded unchanged. -/
theorem C10_witness :
    remove_subscriber_url "B" (framework_decode "l") (framework_decode "a%2540b")
      = "B/subscribers/l.json?email=a@b"
    ∧ ('%' ∉ "abc".data ∧ unquote "abc" = "abc") := by
  have h := C10_double_decode "B" "l" "a%2540b"
  exact ⟨h.1, by decide, h.2.2 "abc" (by decide)⟩
